import Mathlib

/-!
Admission control counters of `src/streaming/stream-control.c`

The C file keeps four `uint32_t` counters in one static struct `sc`, eight
mutators (`__atomic_add_fetch` / `__atomic_sub_fetch` by one) and four boolean
gates that read the counters.

Embedding.  A counter is a `Nat`; every arithmetic step the C code performs on
a `uint32_t` is followed by an explicit `% 2 ^ 32`.  A state that the program
can really hold has all four fields below `2 ^ 32` (`Sc.Valid`).  An atomic
read-modify-write on one counter is one indivisible step, so an execution is a
list of calls applied one after the other (`run`).
-/

namespace StreamControl

/-- Number of values of a `uint32_t`. -/
def UINT32_MOD : Nat := 2 ^ 32

/-- The static struct `sc` (lines 7-25): four `uint32_t` counters. -/
structure Sc where
  backfill_runners : Nat
  replication_runners : Nat
  user_data_queries_runners : Nat
  user_weights_queries_runners : Nat
deriving DecidableEq, Repr

/-- A state the program can hold: every field fits in a `uint32_t`. -/
def Sc.Valid (s : Sc) : Prop :=
  s.backfill_runners < UINT32_MOD ∧ s.replication_runners < UINT32_MOD ∧
  s.user_data_queries_runners < UINT32_MOD ∧ s.user_weights_queries_runners < UINT32_MOD

instance (s : Sc) : Decidable s.Valid := by
  unfold Sc.Valid; exact inferInstance

/-- The zero-initialised static object `sc` at process start. -/
def sc : Sc := ⟨0, 0, 0, 0⟩

/-- The result of `__atomic_add_fetch(p, 1, __ATOMIC_RELAXED)` on a `uint32_t` holding `c`. -/
def atomic_add_fetch_1 (c : Nat) : Nat := (c + 1) % UINT32_MOD

/-- The result of `__atomic_sub_fetch(p, 1, __ATOMIC_RELAXED)` on a `uint32_t` holding `c`:
unsigned subtraction of one, computed as adding `2 ^ 32 - 1` modulo `2 ^ 32`.  The constant is
the left summand so that reduction of the sum stops at the variable `c`. -/
def atomic_sub_fetch_1 (c : Nat) : Nat := (UINT32_MOD - 1 + c) % UINT32_MOD

/-! ## backfilling (lines 30-40) -/

def backfill_runners (s : Sc) : Nat := s.backfill_runners

def stream_control_backfill_query_started (s : Sc) : Sc :=
  { s with backfill_runners := atomic_add_fetch_1 s.backfill_runners }

def stream_control_backfill_query_finished (s : Sc) : Sc :=
  { s with backfill_runners := atomic_sub_fetch_1 s.backfill_runners }

/-! ## replication (lines 45-55) -/

def replication_runners (s : Sc) : Nat := s.replication_runners

def stream_control_replication_query_started (s : Sc) : Sc :=
  { s with replication_runners := atomic_add_fetch_1 s.replication_runners }

def stream_control_replication_query_finished (s : Sc) : Sc :=
  { s with replication_runners := atomic_sub_fetch_1 s.replication_runners }

/-! ## user data queries (lines 60-70) -/

def user_data_query_runners (s : Sc) : Nat := s.user_data_queries_runners

def stream_control_user_data_query_started (s : Sc) : Sc :=
  { s with user_data_queries_runners := atomic_add_fetch_1 s.user_data_queries_runners }

def stream_control_user_data_query_finished (s : Sc) : Sc :=
  { s with user_data_queries_runners := atomic_sub_fetch_1 s.user_data_queries_runners }

/-! ## user weights queries (lines 75-85) -/

def user_weights_query_runners (s : Sc) : Nat := s.user_weights_queries_runners

def stream_control_user_weights_query_started (s : Sc) : Sc :=
  { s with user_weights_queries_runners := atomic_add_fetch_1 s.user_weights_queries_runners }

def stream_control_user_weights_query_finished (s : Sc) : Sc :=
  { s with user_weights_queries_runners := atomic_sub_fetch_1 s.user_weights_queries_runners }

/-! ## consumer API (lines 90-116) -/

def stream_control_ml_should_be_running (s : Sc) : Bool :=
  backfill_runners s == 0 &&
  replication_runners s == 0 &&
  user_data_query_runners s == 0 &&
  user_weights_query_runners s == 0

def stream_control_children_should_be_accepted (s : Sc) : Bool :=
  backfill_runners s == 0

def stream_control_replication_should_be_running (s : Sc) : Bool :=
  backfill_runners s == 0 &&
  user_data_query_runners s == 0 &&
  user_weights_query_runners s == 0

/-- The sum of the two `uint32_t` loads is a `uint32_t` sum, hence taken modulo `2 ^ 32`. -/
def stream_control_health_should_be_running (s : Sc) : Bool :=
  backfill_runners s == 0 &&
  replication_runners s == 0 &&
  decide ((user_data_query_runners s + user_weights_query_runners s) % UINT32_MOD ≤ 1)

/-! ## Categories, calls and executions -/

/-- The four workload classes, one per counter. -/
inductive Category where
  | backfill
  | replication
  | user_data_query
  | user_weights_query
deriving DecidableEq, Repr

/-- One call of one of the eight mutators. -/
inductive Call where
  | started (c : Category)
  | finished (c : Category)
deriving DecidableEq, Repr

/-- The static load function of a category. -/
def load : Category → Sc → Nat
  | .backfill => backfill_runners
  | .replication => replication_runners
  | .user_data_query => user_data_query_runners
  | .user_weights_query => user_weights_query_runners

/-- The `..._query_started` function of a category. -/
def started : Category → Sc → Sc
  | .backfill => stream_control_backfill_query_started
  | .replication => stream_control_replication_query_started
  | .user_data_query => stream_control_user_data_query_started
  | .user_weights_query => stream_control_user_weights_query_started

/-- The `..._query_finished` function of a category. -/
def finished : Category → Sc → Sc
  | .backfill => stream_control_backfill_query_finished
  | .replication => stream_control_replication_query_finished
  | .user_data_query => stream_control_user_data_query_finished
  | .user_weights_query => stream_control_user_weights_query_finished

/-- The effect of one call on the state. -/
def Call.apply : Call → Sc → Sc
  | .started c => StreamControl.started c
  | .finished c => StreamControl.finished c

/-- The state after a sequence of calls, applied first to last. -/
def run (l : List Call) (s : Sc) : Sc := l.foldl (fun st c => c.apply st) s

/-- Number of `started` calls of category `c` in a sequence. -/
def starts (c : Category) (l : List Call) : Nat := l.count (Call.started c)

/-- Number of `finished` calls of category `c` in a sequence. -/
def finishes (c : Category) (l : List Call) : Nat := l.count (Call.finished c)

/-- The caller protocol for category `c`: in every initial segment of the sequence the
`finished` calls of the category do not outnumber its `started` calls, and the number of
runners in flight stays below `2 ^ 32`. -/
def FollowsProtocol (c : Category) (l : List Call) : Prop :=
  ∀ p ∈ l.inits, finishes c p ≤ starts c p ∧ starts c p - finishes c p < UINT32_MOD

instance (c : Category) (l : List Call) : Decidable (FollowsProtocol c l) := by
  unfold FollowsProtocol; exact inferInstance

/-! ## Effect of one call and of a sequence of calls -/

theorem UINT32_MOD_eq : UINT32_MOD = 4294967296 := by
  unfold UINT32_MOD
  norm_num

theorem load_started_same (c : Category) (s : Sc) :
    load c (started c s) = (load c s + 1) % UINT32_MOD := by
  cases c <;> rfl

theorem load_finished_same (c : Category) (s : Sc) :
    load c (finished c s) = (UINT32_MOD - 1 + load c s) % UINT32_MOD := by
  cases c <;> rfl

theorem load_started_other (c d : Category) (s : Sc) (h : d ≠ c) :
    load d (started c s) = load d s := by
  cases c <;> cases d <;> first | exact absurd rfl h | rfl

theorem load_finished_other (c d : Category) (s : Sc) (h : d ≠ c) :
    load d (finished c s) = load d s := by
  cases c <;> cases d <;> first | exact absurd rfl h | rfl

theorem run_nil (s : Sc) : run [] s = s := rfl

theorem run_cons (a : Call) (l : List Call) (s : Sc) : run (a :: l) s = run l (a.apply s) := rfl

theorem starts_cons_started (c d : Category) (l : List Call) :
    starts c (Call.started d :: l) = starts c l + (if d = c then 1 else 0) := by
  simp [starts, List.count_cons]

theorem starts_cons_finished (c d : Category) (l : List Call) :
    starts c (Call.finished d :: l) = starts c l := by
  simp [starts, List.count_cons]

theorem finishes_cons_started (c d : Category) (l : List Call) :
    finishes c (Call.started d :: l) = finishes c l := by
  simp [finishes, List.count_cons]

theorem finishes_cons_finished (c d : Category) (l : List Call) :
    finishes c (Call.finished d :: l) = finishes c l + (if d = c then 1 else 0) := by
  simp [finishes, List.count_cons]

/-- Every call keeps every counter inside the `uint32_t` range. -/
theorem valid_apply (a : Call) (s : Sc) (h : s.Valid) : (a.apply s).Valid := by
  obtain ⟨h1, h2, h3, h4⟩ := h
  have hm : 0 < UINT32_MOD := by rw [UINT32_MOD_eq]; norm_num
  cases a with
  | started c =>
    cases c <;>
      simp only [Call.apply, started, stream_control_backfill_query_started,
        stream_control_replication_query_started, stream_control_user_data_query_started,
        stream_control_user_weights_query_started, atomic_add_fetch_1, Sc.Valid] <;>
      refine ⟨?_, ?_, ?_, ?_⟩ <;> first | assumption | exact Nat.mod_lt _ hm
  | finished c =>
    cases c <;>
      simp only [Call.apply, finished, stream_control_backfill_query_finished,
        stream_control_replication_query_finished, stream_control_user_data_query_finished,
        stream_control_user_weights_query_finished, atomic_sub_fetch_1, Sc.Valid] <;>
      refine ⟨?_, ?_, ?_, ?_⟩ <;> first | assumption | exact Nat.mod_lt _ hm

theorem valid_run (l : List Call) (s : Sc) (h : s.Valid) : (run l s).Valid := by
  induction l generalizing s with
  | nil => exact h
  | cons a l ih => exact ih _ (valid_apply a s h)

theorem valid_sc : sc.Valid := by
  simp [Sc.Valid, sc, UINT32_MOD_eq]

theorem load_lt_of_valid (c : Category) (s : Sc) (h : s.Valid) : load c s < UINT32_MOD := by
  obtain ⟨h1, h2, h3, h4⟩ := h
  cases c <;> assumption

/-- The counter of a category after a sequence of calls, modulo `2 ^ 32`: each `started` adds
one and each `finished` adds `2 ^ 32 - 1`. -/
theorem load_run_mod (c : Category) (l : List Call) (s : Sc) :
    load c (run l s) % UINT32_MOD =
      (load c s + starts c l + finishes c l * (UINT32_MOD - 1)) % UINT32_MOD := by
  induction l generalizing s with
  | nil => simp [run_nil, starts, finishes]
  | cons a l ih =>
    rw [run_cons, ih]
    cases a with
    | started d =>
      rw [starts_cons_started, finishes_cons_started]
      by_cases hd : d = c
      · subst hd
        simp only [Call.apply, load_started_same, if_true, UINT32_MOD_eq]
        omega
      · simp only [Call.apply, load_started_other d c s (Ne.symm hd), if_neg hd, Nat.add_zero]
    | finished d =>
      rw [starts_cons_finished, finishes_cons_finished]
      by_cases hd : d = c
      · subst hd
        simp only [Call.apply, load_finished_same, if_true, UINT32_MOD_eq]
        omega
      · simp only [Call.apply, load_finished_other d c s (Ne.symm hd), if_neg hd, Nat.add_zero]

/-- From a valid state the counter is exactly that residue. -/
theorem load_run (c : Category) (l : List Call) (s : Sc) (h : s.Valid) :
    load c (run l s) =
      (load c s + starts c l + finishes c l * (UINT32_MOD - 1)) % UINT32_MOD := by
  rw [← load_run_mod, Nat.mod_eq_of_lt (load_lt_of_valid c _ (valid_run l s h))]

theorem load_sc (c : Category) : load c sc = 0 := by
  cases c <;> rfl

theorem starts_replicate (c : Category) (n : Nat) :
    starts c (List.replicate n (Call.started c)) = n := by
  simp [starts]

theorem finishes_replicate (c d : Category) (n : Nat) :
    finishes c (List.replicate n (Call.started d)) = 0 := by
  simp [finishes, List.count_replicate]

/-- From a state that fits in `uint32_t`, `finished` undoes `started` of the same category. -/
theorem finished_started (c : Category) (s : Sc) (h : s.Valid) :
    finished c (started c s) = s := by
  obtain ⟨b, r, d, w⟩ := s
  simp only [Sc.Valid, UINT32_MOD_eq] at h
  obtain ⟨h1, h2, h3, h4⟩ := h
  cases c <;>
    simp only [finished, started, stream_control_backfill_query_started,
      stream_control_backfill_query_finished, stream_control_replication_query_started,
      stream_control_replication_query_finished, stream_control_user_data_query_started,
      stream_control_user_data_query_finished, stream_control_user_weights_query_started,
      stream_control_user_weights_query_finished, atomic_add_fetch_1, atomic_sub_fetch_1,
      UINT32_MOD_eq, Sc.mk.injEq, true_and, and_true] <;>
    omega

/-- A non-zero counter makes every gate that tests it return false. -/
theorem gates_false_of_load_ne_zero (c : Category) (t : Sc) (h : load c t ≠ 0) :
    stream_control_ml_should_be_running t = false ∧
    (c = .backfill → stream_control_children_should_be_accepted t = false ∧
      stream_control_replication_should_be_running t = false ∧
      stream_control_health_should_be_running t = false) ∧
    (c = .replication → stream_control_health_should_be_running t = false) ∧
    (c = .user_data_query → stream_control_replication_should_be_running t = false) ∧
    (c = .user_weights_query → stream_control_replication_should_be_running t = false) := by
  cases c <;>
    simp only [load] at h <;>
    simp [stream_control_ml_should_be_running, stream_control_children_should_be_accepted,
      stream_control_replication_should_be_running, stream_control_health_should_be_running, h]

/-- Any two calls commute. -/
theorem apply_comm (a b : Call) (s : Sc) : b.apply (a.apply s) = a.apply (b.apply s) := by
  obtain ⟨x, y, z, w⟩ := s
  rcases a with c | c <;> rcases b with d | d <;> cases c <;> cases d <;>
    simp only [Call.apply, finished, started, stream_control_backfill_query_started,
      stream_control_backfill_query_finished, stream_control_replication_query_started,
      stream_control_replication_query_finished, stream_control_user_data_query_started,
      stream_control_user_data_query_finished, stream_control_user_weights_query_started,
      stream_control_user_weights_query_finished, atomic_add_fetch_1, atomic_sub_fetch_1,
      UINT32_MOD_eq, Sc.mk.injEq, true_and, and_true] <;>
    omega

/-! ## Gates as formulas over the counters -/

/-- C1: in every state, `stream_control_ml_should_be_running` returns true exactly when the
backfill, replication, user-data and user-weights counters are all 0. -/
theorem ml_should_be_running_iff (s : Sc) :
    stream_control_ml_should_be_running s = true ↔
      s.backfill_runners = 0 ∧ s.replication_runners = 0 ∧
      s.user_data_queries_runners = 0 ∧ s.user_weights_queries_runners = 0 := by
  simp [stream_control_ml_should_be_running, backfill_runners, replication_runners,
    user_data_query_runners, user_weights_query_runners, and_assoc]

/-- C2: in every state, `stream_control_children_should_be_accepted` returns true exactly when
the backfill counter is 0, and its result is the same whatever the replication, user-data and
user-weights counters hold. -/
theorem children_should_be_accepted_iff :
    (∀ s : Sc, stream_control_children_should_be_accepted s = true ↔ s.backfill_runners = 0) ∧
    (∀ b r d w r2 d2 w2 : Nat,
      stream_control_children_should_be_accepted ⟨b, r, d, w⟩ =
        stream_control_children_should_be_accepted ⟨b, r2, d2, w2⟩) := by
  constructor
  · intro s
    simp [stream_control_children_should_be_accepted, backfill_runners]
  · intros
    rfl

/-- C3: in every state, `stream_control_replication_should_be_running` returns true exactly
when the backfill, user-data and user-weights counters are all 0; the replication counter
does not influence the result, and replication = 3 with the others at 0 gives true. -/
theorem replication_should_be_running_iff :
    (∀ s : Sc, stream_control_replication_should_be_running s = true ↔
      s.backfill_runners = 0 ∧ s.user_data_queries_runners = 0 ∧
      s.user_weights_queries_runners = 0) ∧
    (∀ b r r2 d w : Nat,
      stream_control_replication_should_be_running ⟨b, r, d, w⟩ =
        stream_control_replication_should_be_running ⟨b, r2, d, w⟩) ∧
    stream_control_replication_should_be_running ⟨0, 3, 0, 0⟩ = true := by
  refine ⟨?_, ?_, rfl⟩
  · intro s
    simp [stream_control_replication_should_be_running, backfill_runners,
      user_data_query_runners, user_weights_query_runners, and_assoc]
  · intros
    rfl

/-- C4: in every state, `stream_control_health_should_be_running` returns true exactly when
backfill = 0, replication = 0 and the 32-bit unsigned sum userData + userWeights is at most 1;
with backfill = replication = 0 it is true for (userData, userWeights) = (1, 0) and false for
(1, 1). -/
theorem health_should_be_running_iff :
    (∀ s : Sc, stream_control_health_should_be_running s = true ↔
      s.backfill_runners = 0 ∧ s.replication_runners = 0 ∧
      (s.user_data_queries_runners + s.user_weights_queries_runners) % 2 ^ 32 ≤ 1) ∧
    stream_control_health_should_be_running ⟨0, 0, 1, 0⟩ = true ∧
    stream_control_health_should_be_running ⟨0, 0, 1, 1⟩ = false := by
  refine ⟨?_, ?_, ?_⟩
  · intro s
    simp [stream_control_health_should_be_running, backfill_runners, replication_runners,
      user_data_query_runners, user_weights_query_runners, UINT32_MOD_eq, and_assoc]
  · simp [stream_control_health_should_be_running, backfill_runners, replication_runners,
      user_data_query_runners, user_weights_query_runners, UINT32_MOD_eq]
  · simp [stream_control_health_should_be_running, backfill_runners, replication_runners,
      user_data_query_runners, user_weights_query_runners, UINT32_MOD_eq]

/-! ## Effect of the mutators -/

/-- C5: for every category and state, `started` replaces the category's counter `c` by
`c + 1` modulo `2 ^ 32`, `finished` replaces it by `c - 1` modulo `2 ^ 32` (computed over the
integers), and both leave the counters of the other three categories unchanged. -/
theorem started_finished_effect (c : Category) (s : Sc) :
    load c (started c s) = (load c s + 1) % 2 ^ 32 ∧
    ((load c (finished c s) : Nat) : Int) = ((load c s : Nat) - 1 : Int) % 2 ^ 32 ∧
    ∀ d : Category, d ≠ c →
      load d (started c s) = load d s ∧ load d (finished c s) = load d s := by
  refine ⟨?_, ?_, ?_⟩
  · rw [load_started_same, UINT32_MOD_eq]
    norm_num
  · rw [load_finished_same, UINT32_MOD_eq]
    norm_num
    omega
  · intro d hd
    exact ⟨load_started_other c d s hd, load_finished_other c d s hd⟩

/-- Instance of C5 at backfill in a state with counters 0, 7, 8, 9: the replication counter
keeps its value 7 under both backfill mutators. -/
theorem started_finished_effect_witness :
    Category.replication ≠ Category.backfill ∧
    load .replication (started .backfill ⟨0, 7, 8, 9⟩) = 7 ∧
    load .replication (finished .backfill ⟨0, 7, 8, 9⟩) = 7 :=
  ⟨by decide, (started_finished_effect .backfill ⟨0, 7, 8, 9⟩).2.2 .replication (by decide)⟩

/-- C6: in the zero-initialised state all four counters are 0 and all four predicates
return true. -/
theorem initial_state :
    backfill_runners sc = 0 ∧ replication_runners sc = 0 ∧
    user_data_query_runners sc = 0 ∧ user_weights_query_runners sc = 0 ∧
    stream_control_ml_should_be_running sc = true ∧
    stream_control_children_should_be_accepted sc = true ∧
    stream_control_replication_should_be_running sc = true ∧
    stream_control_health_should_be_running sc = true := by
  decide

/-- C7: after any sequence of calls from the initial state in which every category has as many
`finished` as `started` calls, in whatever order, every counter is 0. -/
theorem balanced_returns_to_zero (l : List Call) (h : ∀ c, starts c l = finishes c l) :
    ∀ c, load c (run l sc) = 0 := by
  intro c
  rw [load_run c l sc valid_sc, load_sc, h c, UINT32_MOD_eq]
  omega

/-- Instance of C7: two backfill runners and one replication runner, interleaved. -/
theorem balanced_returns_to_zero_witness :
    load .backfill (run [.started .backfill, .started .replication, .started .backfill,
      .finished .backfill, .finished .replication, .finished .backfill] sc) = 0 ∧
    load .replication (run [.started .backfill, .started .replication, .started .backfill,
      .finished .backfill, .finished .replication, .finished .backfill] sc) = 0 :=
  ⟨balanced_returns_to_zero _ (by intro c; cases c <;> rfl) .backfill,
   balanced_returns_to_zero _ (by intro c; cases c <;> rfl) .replication⟩

/-- C8: for every category and every sequence of calls from the initial state that follows the
caller protocol for that category, the value loaded from the category's counter equals the
number of its `started` calls minus the number of its `finished` calls. -/
theorem load_counts_active_runners (c : Category) (l : List Call) (h : FollowsProtocol c l) :
    load c (run l sc) = starts c l - finishes c l := by
  have hl : l ∈ l.inits := by simp [List.mem_inits]
  obtain ⟨h1, h2⟩ := h l hl
  rw [load_run c l sc valid_sc, load_sc]
  rw [UINT32_MOD_eq] at h2 ⊢
  omega

/-- Instance of C8: two backfill runners started and one finished leave one in flight. -/
theorem load_counts_active_runners_witness :
    FollowsProtocol .backfill [.started .backfill, .started .backfill, .finished .backfill] ∧
    load .backfill
      (run [.started .backfill, .started .backfill, .finished .backfill] sc) = 1 :=
  ⟨by decide, load_counts_active_runners .backfill _ (by decide)⟩

/-- C9, refuted as stated: `2 ^ 32` calls of `stream_control_backfill_query_started` from the
initial state leave the backfill counter at 0, not at `2 ^ 32`. -/
theorem started_calls_wrap_around :
    load .backfill (run (List.replicate 4294967296 (Call.started .backfill)) sc) = 0 ∧
    load .backfill (run (List.replicate 4294967296 (Call.started .backfill)) sc)
      ≠ 4294967296 := by
  have h : load .backfill
      (run (List.replicate 4294967296 (Call.started .backfill)) sc) = 0 := by
    rw [load_run _ _ _ valid_sc, load_sc, starts_replicate, finishes_replicate, UINT32_MOD_eq]
  exact ⟨h, by rw [h]; decide⟩

/-- C9, amended: after a sequence of calls from the initial state that holds `N` `started` calls
of a category and no `finished` call of it, the load of the category's counter is `N` modulo
`2 ^ 32`; it is `N` itself whenever `N < 2 ^ 32`. -/
theorem started_calls_count (c : Category) (l : List Call) (h : finishes c l = 0) :
    load c (run l sc) = starts c l % 2 ^ 32 ∧
    (starts c l < 2 ^ 32 → load c (run l sc) = starts c l) := by
  have e : load c (run l sc) = starts c l % 2 ^ 32 := by
    rw [load_run c l sc valid_sc, load_sc, h, UINT32_MOD_eq]
    norm_num
  exact ⟨e, fun hN => by rw [e]; exact Nat.mod_eq_of_lt hN⟩

/-- Instance of C9 as amended: three backfill starts, with a replication start in between. -/
theorem started_calls_count_witness :
    finishes .backfill
      [.started .backfill, .started .replication, .started .backfill, .started .backfill] = 0 ∧
    load .backfill (run
      [.started .backfill, .started .replication, .started .backfill, .started .backfill] sc)
      = 3 :=
  ⟨by decide, (started_calls_count .backfill _ (by decide)).2 (by decide)⟩

/-- C10: after one `stream_control_backfill_query_started` from the initial state all four
predicates return false, and in every state whose backfill counter is non-zero all four
predicates return false. -/
theorem backfill_blocks_all_gates :
    (stream_control_ml_should_be_running (stream_control_backfill_query_started sc) = false ∧
     stream_control_children_should_be_accepted
       (stream_control_backfill_query_started sc) = false ∧
     stream_control_replication_should_be_running
       (stream_control_backfill_query_started sc) = false ∧
     stream_control_health_should_be_running
       (stream_control_backfill_query_started sc) = false) ∧
    ∀ s : Sc, backfill_runners s ≠ 0 →
      stream_control_ml_should_be_running s = false ∧
      stream_control_children_should_be_accepted s = false ∧
      stream_control_replication_should_be_running s = false ∧
      stream_control_health_should_be_running s = false := by
  refine ⟨by decide, ?_⟩
  intro s h
  simp [stream_control_ml_should_be_running, stream_control_children_should_be_accepted,
    stream_control_replication_should_be_running, stream_control_health_should_be_running, h]

/-- Instance of C10: a state with five backfill runners and nothing else. -/
theorem backfill_blocks_all_gates_witness :
    backfill_runners ⟨5, 0, 0, 0⟩ ≠ 0 ∧
    stream_control_ml_should_be_running ⟨5, 0, 0, 0⟩ = false ∧
    stream_control_children_should_be_accepted ⟨5, 0, 0, 0⟩ = false ∧
    stream_control_replication_should_be_running ⟨5, 0, 0, 0⟩ = false ∧
    stream_control_health_should_be_running ⟨5, 0, 0, 0⟩ = false :=
  ⟨by decide, backfill_blocks_all_gates.2 ⟨5, 0, 0, 0⟩ (by decide)⟩

/-! ## Matching and unbalanced releases -/

/-- C11: for every category and every state `s` of four `uint32_t` counters, `started` followed
by the matching `finished` yields `s` again, so each predicate returns what it returned before;
the backfill pair applied to the all-zero state leaves all four predicates true. -/
theorem started_then_finished_restores (c : Category) (s : Sc) (h : s.Valid) :
    finished c (started c s) = s ∧
    stream_control_ml_should_be_running (finished c (started c s)) =
      stream_control_ml_should_be_running s ∧
    stream_control_children_should_be_accepted (finished c (started c s)) =
      stream_control_children_should_be_accepted s ∧
    stream_control_replication_should_be_running (finished c (started c s)) =
      stream_control_replication_should_be_running s ∧
    stream_control_health_should_be_running (finished c (started c s)) =
      stream_control_health_should_be_running s ∧
    stream_control_ml_should_be_running
      (stream_control_backfill_query_finished (stream_control_backfill_query_started sc)) = true ∧
    stream_control_children_should_be_accepted
      (stream_control_backfill_query_finished (stream_control_backfill_query_started sc)) = true ∧
    stream_control_replication_should_be_running
      (stream_control_backfill_query_finished (stream_control_backfill_query_started sc)) = true ∧
    stream_control_health_should_be_running
      (stream_control_backfill_query_finished (stream_control_backfill_query_started sc)) = true := by
  have e := finished_started c s h
  refine ⟨e, by rw [e], by rw [e], by rw [e], by rw [e], ?_, ?_, ?_, ?_⟩ <;> decide

/-- Instance of C11: a user-data query started and finished while three backfill runners and
one replication runner are active. -/
theorem started_then_finished_restores_witness :
    Sc.Valid ⟨3, 1, 0, 0⟩ ∧
    finished .user_data_query (started .user_data_query ⟨3, 1, 0, 0⟩) = ⟨3, 1, 0, 0⟩ :=
  ⟨by decide, (started_then_finished_restores .user_data_query ⟨3, 1, 0, 0⟩ (by decide)).1⟩

/-- C12: with the backfill, user-data and user-weights counters at 0,
`stream_control_children_should_be_accepted` returns true for every value `r` of the replication
counter and `stream_control_ml_should_be_running` returns false for every non-zero `r`; five
`stream_control_replication_query_started` calls from the initial state give `r = 5`. -/
theorem replication_load_independence :
    (∀ r : Nat, stream_control_children_should_be_accepted ⟨0, r, 0, 0⟩ = true) ∧
    (∀ r : Nat, r ≠ 0 → stream_control_ml_should_be_running ⟨0, r, 0, 0⟩ = false) ∧
    stream_control_replication_query_started (stream_control_replication_query_started
      (stream_control_replication_query_started (stream_control_replication_query_started
        (stream_control_replication_query_started sc)))) = ⟨0, 5, 0, 0⟩ ∧
    stream_control_children_should_be_accepted
      (stream_control_replication_query_started (stream_control_replication_query_started
        (stream_control_replication_query_started (stream_control_replication_query_started
          (stream_control_replication_query_started sc))))) = true ∧
    stream_control_ml_should_be_running
      (stream_control_replication_query_started (stream_control_replication_query_started
        (stream_control_replication_query_started (stream_control_replication_query_started
          (stream_control_replication_query_started sc))))) = false := by
  refine ⟨fun r => rfl, ?_, by decide, by decide, by decide⟩
  intro r hr
  simp [stream_control_ml_should_be_running, backfill_runners, replication_runners, hr]

/-- Instance of C12 at `r = 5`. -/
theorem replication_load_independence_witness :
    (5 : Nat) ≠ 0 ∧ stream_control_ml_should_be_running ⟨0, 5, 0, 0⟩ = false :=
  ⟨by decide, replication_load_independence.2.1 5 (by decide)⟩

/-- C13: a `finished` call applied to a state in which its category's counter is 0 leaves that
counter at `2 ^ 32 - 1`, and every predicate that tests the counter against zero returns false
afterwards: all four for backfill, ml and health for replication, ml and replication for
user-data and for user-weights. -/
theorem unbalanced_release_underflows (s : Sc) :
    (backfill_runners s = 0 →
      backfill_runners (stream_control_backfill_query_finished s) = 2 ^ 32 - 1 ∧
      stream_control_ml_should_be_running (stream_control_backfill_query_finished s) = false ∧
      stream_control_children_should_be_accepted
        (stream_control_backfill_query_finished s) = false ∧
      stream_control_replication_should_be_running
        (stream_control_backfill_query_finished s) = false ∧
      stream_control_health_should_be_running
        (stream_control_backfill_query_finished s) = false) ∧
    (replication_runners s = 0 →
      replication_runners (stream_control_replication_query_finished s) = 2 ^ 32 - 1 ∧
      stream_control_ml_should_be_running (stream_control_replication_query_finished s) = false ∧
      stream_control_health_should_be_running
        (stream_control_replication_query_finished s) = false) ∧
    (user_data_query_runners s = 0 →
      user_data_query_runners (stream_control_user_data_query_finished s) = 2 ^ 32 - 1 ∧
      stream_control_ml_should_be_running (stream_control_user_data_query_finished s) = false ∧
      stream_control_replication_should_be_running
        (stream_control_user_data_query_finished s) = false) ∧
    (user_weights_query_runners s = 0 →
      user_weights_query_runners (stream_control_user_weights_query_finished s) = 2 ^ 32 - 1 ∧
      stream_control_ml_should_be_running
        (stream_control_user_weights_query_finished s) = false ∧
      stream_control_replication_should_be_running
        (stream_control_user_weights_query_finished s) = false) := by
  have hb : ∀ c, load c s = 0 → load c (finished c s) = 2 ^ 32 - 1 := by
    intro c h0
    rw [load_finished_same, h0, UINT32_MOD_eq]
    norm_num
  have hn : ∀ c, load c s = 0 → load c (finished c s) ≠ 0 := by
    intro c h0
    rw [hb c h0]
    norm_num
  refine ⟨fun h => ?_, fun h => ?_, fun h => ?_, fun h => ?_⟩
  · have g := gates_false_of_load_ne_zero .backfill _ (hn .backfill h)
    exact ⟨hb .backfill h, g.1, (g.2.1 rfl).1, (g.2.1 rfl).2.1, (g.2.1 rfl).2.2⟩
  · have g := gates_false_of_load_ne_zero .replication _ (hn .replication h)
    exact ⟨hb .replication h, g.1, g.2.2.1 rfl⟩
  · have g := gates_false_of_load_ne_zero .user_data_query _ (hn .user_data_query h)
    exact ⟨hb .user_data_query h, g.1, g.2.2.2.1 rfl⟩
  · have g := gates_false_of_load_ne_zero .user_weights_query _ (hn .user_weights_query h)
    exact ⟨hb .user_weights_query h, g.1, g.2.2.2.2 rfl⟩

/-- Instance of C13: a replication release in the initial state. -/
theorem unbalanced_release_underflows_witness :
    replication_runners sc = 0 ∧
    replication_runners (stream_control_replication_query_finished sc) = 2 ^ 32 - 1 ∧
    stream_control_ml_should_be_running (stream_control_replication_query_finished sc) = false ∧
    stream_control_health_should_be_running
      (stream_control_replication_query_finished sc) = false :=
  ⟨rfl, (unbalanced_release_underflows sc).2.1 rfl⟩

/-- C14, refuted as stated: after an unbalanced backfill release in the initial state, one
further `stream_control_backfill_query_started` (a further sequence holding no `finished` call
at all) brings the state back to the initial one, and all four predicates return true again. -/
theorem lockout_lifted_by_one_started :
    stream_control_children_should_be_accepted (finished .backfill sc) = false ∧
    run [Call.started .backfill] (finished .backfill sc) = sc ∧
    stream_control_ml_should_be_running
      (run [Call.started .backfill] (finished .backfill sc)) = true ∧
    stream_control_children_should_be_accepted
      (run [Call.started .backfill] (finished .backfill sc)) = true ∧
    stream_control_replication_should_be_running
      (run [Call.started .backfill] (finished .backfill sc)) = true ∧
    stream_control_health_should_be_running
      (run [Call.started .backfill] (finished .backfill sc)) = true := by
  decide

/-- C14, amended: once `finished` has been applied to a category's counter at 0, then after any
further sequence of calls in which the category's `finished` calls do not outnumber its
`started` calls, the counter is 0 exactly when the number of further runners in flight is 1
modulo `2 ^ 32`; in every other case each predicate that tests the counter returns false. -/
theorem lockout_until_one_in_flight (c : Category) (s : Sc) (l : List Call)
    (hs : s.Valid) (h0 : load c s = 0) (hp : finishes c l ≤ starts c l) :
    (load c (run l (finished c s)) = 0 ↔ (starts c l - finishes c l) % 2 ^ 32 = 1) ∧
    ((starts c l - finishes c l) % 2 ^ 32 ≠ 1 →
      stream_control_ml_should_be_running (run l (finished c s)) = false ∧
      (c = .backfill →
        stream_control_children_should_be_accepted (run l (finished c s)) = false ∧
        stream_control_replication_should_be_running (run l (finished c s)) = false ∧
        stream_control_health_should_be_running (run l (finished c s)) = false) ∧
      (c = .replication →
        stream_control_health_should_be_running (run l (finished c s)) = false) ∧
      (c = .user_data_query →
        stream_control_replication_should_be_running (run l (finished c s)) = false) ∧
      (c = .user_weights_query →
        stream_control_replication_should_be_running (run l (finished c s)) = false)) := by
  have hv : (finished c s).Valid := valid_apply (Call.finished c) s hs
  have e : (load c (run l (finished c s)) = 0 ↔ (starts c l - finishes c l) % 2 ^ 32 = 1) := by
    rw [load_run c l _ hv, load_finished_same, h0, UINT32_MOD_eq]
    norm_num
    omega
  exact ⟨e, fun hk => gates_false_of_load_ne_zero c _ (fun hz => hk (e.1 hz))⟩

/-- Instance of C14 as amended: after an unbalanced backfill release in the initial state, a
complete further backfill run (one start, one finish) leaves the gates closed. -/
theorem lockout_until_one_in_flight_witness :
    sc.Valid ∧ load .backfill sc = 0 ∧
    finishes .backfill [.started .backfill, .finished .backfill] ≤
      starts .backfill [.started .backfill, .finished .backfill] ∧
    stream_control_ml_should_be_running
      (run [.started .backfill, .finished .backfill] (finished .backfill sc)) = false :=
  ⟨by decide, rfl, by decide,
    ((lockout_until_one_in_flight .backfill sc [.started .backfill, .finished .backfill]
      (by decide) rfl (by decide)).2 (by decide)).1⟩

/-! ## Relations between the gates and between the mutators -/

/-- C16, refuted as stated: an unbalanced user-data release followed by one user-weights start
reaches the state with user-data `2 ^ 32 - 1` and user-weights 1, in which
`stream_control_health_should_be_running` returns true although the two counters add up, as
natural numbers, to `2 ^ 32`. -/
theorem health_true_on_wrapped_sum :
    run [Call.finished .user_data_query, Call.started .user_weights_query] sc
      = ⟨0, 0, 4294967295, 1⟩ ∧
    Sc.Valid ⟨0, 0, 4294967295, 1⟩ ∧
    stream_control_health_should_be_running ⟨0, 0, 4294967295, 1⟩ = true ∧
    ¬ (user_data_query_runners ⟨0, 0, 4294967295, 1⟩ +
        user_weights_query_runners ⟨0, 0, 4294967295, 1⟩ ≤ 1) := by
  decide

/-- C16, amended: whenever `stream_control_health_should_be_running` returns true, the 32-bit
sum of the user-data and user-weights counters is at most 1; the sum as natural numbers is at
most 1 in every state where it is below `2 ^ 32`. -/
theorem health_true_bounds_user_queries (s : Sc)
    (h : stream_control_health_should_be_running s = true) :
    (user_data_query_runners s + user_weights_query_runners s) % 2 ^ 32 ≤ 1 ∧
    (user_data_query_runners s + user_weights_query_runners s < 2 ^ 32 →
      user_data_query_runners s + user_weights_query_runners s ≤ 1) := by
  simp only [stream_control_health_should_be_running, Bool.and_eq_true, decide_eq_true_eq,
    UINT32_MOD_eq] at h
  have h1 := h.2
  norm_num at h1 ⊢
  exact ⟨h1, fun hlt => by rwa [Nat.mod_eq_of_lt hlt] at h1⟩

/-- Instance of C16 as amended: one user-data query and no user-weights query. -/
theorem health_true_bounds_user_queries_witness :
    stream_control_health_should_be_running ⟨0, 0, 1, 0⟩ = true ∧
    user_data_query_runners ⟨0, 0, 1, 0⟩ + user_weights_query_runners ⟨0, 0, 1, 0⟩ ≤ 1 :=
  ⟨by decide, (health_true_bounds_user_queries ⟨0, 0, 1, 0⟩ (by decide)).2 (by decide)⟩

/-- C17: in every state, if `stream_control_ml_should_be_running` returns true then so do
`stream_control_replication_should_be_running` and `stream_control_health_should_be_running`,
and if either of those two returns true then `stream_control_children_should_be_accepted`
returns true. -/
theorem gates_nested (s : Sc) :
    (stream_control_ml_should_be_running s = true →
      stream_control_replication_should_be_running s = true ∧
      stream_control_health_should_be_running s = true) ∧
    (stream_control_replication_should_be_running s = true ∨
      stream_control_health_should_be_running s = true →
      stream_control_children_should_be_accepted s = true) := by
  constructor
  · intro h
    simp only [stream_control_ml_should_be_running, Bool.and_eq_true, beq_iff_eq] at h
    obtain ⟨⟨⟨hb, hr⟩, hd⟩, hw⟩ := h
    simp [stream_control_replication_should_be_running,
      stream_control_health_should_be_running, hb, hr, hd, hw]
  · intro h
    simp only [stream_control_replication_should_be_running,
      stream_control_health_should_be_running, stream_control_children_should_be_accepted,
      Bool.and_eq_true, beq_iff_eq] at h ⊢
    rcases h with h | h
    · exact h.1.1
    · exact h.1.1

/-- Instance of C17 in the initial state. -/
theorem gates_nested_witness :
    stream_control_ml_should_be_running sc = true ∧
    stream_control_replication_should_be_running sc = true ∧
    stream_control_health_should_be_running sc = true ∧
    stream_control_children_should_be_accepted sc = true :=
  ⟨by decide, ((gates_nested sc).1 (by decide)).1, ((gates_nested sc).1 (by decide)).2,
    (gates_nested sc).2 (Or.inl (by decide))⟩

/-- C18: any two of the eight mutator calls commute on every state, and two sequences of calls
in which every call occurs equally often lead from the same state to the same state. -/
theorem calls_commute_order_irrelevant :
    (∀ (a b : Call) (s : Sc), b.apply (a.apply s) = a.apply (b.apply s)) ∧
    (∀ (l1 l2 : List Call) (s : Sc),
      (∀ a : Call, l1.count a = l2.count a) → run l1 s = run l2 s) := by
  refine ⟨apply_comm, ?_⟩
  intro l1 l2 s h
  exact (List.perm_iff_count.2 h).foldl_eq' (fun x _ y _ z => apply_comm x y z) s

/-- Instance of C18: a backfill start and a replication release in both orders. -/
theorem calls_commute_order_irrelevant_witness :
    run [.started .backfill, .finished .replication] sc =
      run [.finished .replication, .started .backfill] sc :=
  calls_commute_order_irrelevant.2 _ _ sc
    (fun a => by rcases a with c | c <;> cases c <;> rfl)

/-- C19: in a state where every counter is below `2 ^ 32 - 1` and user-data plus user-weights
(as natural numbers) is below `2 ^ 32 - 1`, no `started` call turns any of the four predicates
from false to true; in a state where the counter being decremented is non-zero and user-data
plus user-weights (as natural numbers) is below `2 ^ 32`, no `finished` call turns any of the
four predicates from true to false. -/
theorem more_load_never_opens_a_gate (c : Category) (s : Sc) :
    ((∀ d, load d s < 2 ^ 32 - 1) →
      user_data_query_runners s + user_weights_query_runners s < 2 ^ 32 - 1 →
      (stream_control_ml_should_be_running s = false →
        stream_control_ml_should_be_running (started c s) = false) ∧
      (stream_control_children_should_be_accepted s = false →
        stream_control_children_should_be_accepted (started c s) = false) ∧
      (stream_control_replication_should_be_running s = false →
        stream_control_replication_should_be_running (started c s) = false) ∧
      (stream_control_health_should_be_running s = false →
        stream_control_health_should_be_running (started c s) = false)) ∧
    (load c s ≠ 0 →
      user_data_query_runners s + user_weights_query_runners s < 2 ^ 32 →
      (stream_control_ml_should_be_running s = true →
        stream_control_ml_should_be_running (finished c s) = true) ∧
      (stream_control_children_should_be_accepted s = true →
        stream_control_children_should_be_accepted (finished c s) = true) ∧
      (stream_control_replication_should_be_running s = true →
        stream_control_replication_should_be_running (finished c s) = true) ∧
      (stream_control_health_should_be_running s = true →
        stream_control_health_should_be_running (finished c s) = true)) := by
  obtain ⟨b, r, d, w⟩ := s
  constructor
  · intro hall hsum
    have hb := hall .backfill
    have hr := hall .replication
    have hd := hall .user_data_query
    have hw := hall .user_weights_query
    simp only [load, backfill_runners, replication_runners, user_data_query_runners,
      user_weights_query_runners] at hb hr hd hw hsum
    norm_num at hb hr hd hw hsum
    cases c <;>
      simp only [started, stream_control_backfill_query_started,
        stream_control_replication_query_started, stream_control_user_data_query_started,
        stream_control_user_weights_query_started, atomic_add_fetch_1,
        stream_control_ml_should_be_running, stream_control_children_should_be_accepted,
        stream_control_replication_should_be_running, stream_control_health_should_be_running,
        backfill_runners, replication_runners, user_data_query_runners,
        user_weights_query_runners, UINT32_MOD_eq, Bool.and_eq_false_iff, beq_eq_false_iff_ne,
        decide_eq_false_iff_not, ne_eq] <;>
      omega
  · intro hne hsum
    simp only [backfill_runners, replication_runners, user_data_query_runners,
      user_weights_query_runners] at hsum
    norm_num at hsum
    cases c <;>
      simp only [load, backfill_runners, replication_runners, user_data_query_runners,
        user_weights_query_runners, ne_eq] at hne <;>
      simp only [finished, stream_control_backfill_query_finished,
        stream_control_replication_query_finished, stream_control_user_data_query_finished,
        stream_control_user_weights_query_finished, atomic_sub_fetch_1,
        stream_control_ml_should_be_running, stream_control_children_should_be_accepted,
        stream_control_replication_should_be_running, stream_control_health_should_be_running,
        backfill_runners, replication_runners, user_data_query_runners,
        user_weights_query_runners, UINT32_MOD_eq, Bool.and_eq_true, beq_iff_eq,
        decide_eq_true_eq] <;>
      omega

/-- Instance of C19: with one user-data and one user-weights query the health gate is closed and
stays closed under a further user-data start; with a single user-data query it is open and
stays open when that query finishes. -/
theorem more_load_never_opens_a_gate_witness :
    stream_control_health_should_be_running ⟨0, 0, 1, 1⟩ = false ∧
    stream_control_health_should_be_running (started .user_data_query ⟨0, 0, 1, 1⟩) = false ∧
    stream_control_health_should_be_running ⟨0, 0, 1, 0⟩ = true ∧
    stream_control_health_should_be_running (finished .user_data_query ⟨0, 0, 1, 0⟩) = true :=
  ⟨by decide,
    ((more_load_never_opens_a_gate .user_data_query ⟨0, 0, 1, 1⟩).1
      (fun d => by cases d <;> decide) (by decide)).2.2.2 (by decide),
    by decide,
    ((more_load_never_opens_a_gate .user_data_query ⟨0, 0, 1, 0⟩).2
      (by decide) (by decide)).2.2.2 (by decide)⟩

end StreamControl
